import Mathlib

/-!
Shallow embedding of `src/Beanland-Atlas/Beanland-Atlas/commensuration_ellipses.cpp`
(namespace `ba`).  C++ `double` arithmetic is modelled over `ℝ`; `std::vector`
indexing is modelled by `List.getD` with default `0` (out-of-range access is
undefined behaviour in the C++; every claim below only evaluates in-range
indices, or models the out-of-range write explicitly with a checked write).
-/

namespace ba

open Real

/-- The `ellipse` struct used by `ellipse_points_from_conic`: fields written by
the source are `is_ellipse`, `center`, `a`, `b`, `angle`.  In the C++ the
non-`is_ellipse` fields are left default/indeterminate on the early-return
branch; they are modelled as `0` there (no claim reads them on that branch). -/
structure ellipse where
  is_ellipse : Bool
  center : ℝ × ℝ
  a : ℝ
  b : ℝ
  angle : ℝ

/-- Value of the conic `A*x*x + B*x*y + C*y*y + D*x + E*y + F` at `(x, y)`,
with `(A,B,C,D,E,F)` the entries of `conic` — the equation stated in the doc
comment of `ellipse_points_from_conic` (commensuration_ellipses.cpp:361). -/
noncomputable def conic_eval (conic : List ℝ) (x y : ℝ) : ℝ :=
  conic.getD 0 0 * x * x + conic.getD 1 0 * x * y + conic.getD 2 0 * y * y +
    conic.getD 3 0 * x + conic.getD 4 0 * y + conic.getD 5 0

/-- `std::atan( conic[1] / ( conic[0]-conic[2] ) )` — the quantity the source
calls `theta_times_2` (commensuration_ellipses.cpp:382). -/
noncomputable def conic_theta_times_2 (conic : List ℝ) : ℝ :=
  Real.arctan (conic.getD 1 0 / (conic.getD 0 0 - conic.getD 2 0))

/-- `theta_times_2` after the sign adjustment `if (theta_times_2 < 0)
theta_times_2 += 0.5*PI` (commensuration_ellipses.cpp:385-388). -/
noncomputable def conic_theta_times_2_adj (conic : List ℝ) : ℝ :=
  if conic_theta_times_2 conic < 0 then conic_theta_times_2 conic + 0.5 * π
  else conic_theta_times_2 conic

/-- Embedding of `ellipse_points_from_conic`
(commensuration_ellipses.cpp:368-430).  The branch condition, the recorded
angle `0.5*theta_times_2`, the rotated coefficients `A,C,D,E,F`, the center and
the semi-axis formulas follow the source line by line.  The local `extrema`
vector is modelled separately (`ellipse_extrema`) because its writes are out of
bounds. -/
noncomputable def ellipse_points_from_conic (conic : List ℝ) : ellipse :=
  if 4.0 * conic.getD 0 0 * conic.getD 2 0 - conic.getD 1 0 * conic.getD 1 0 > 0 then
    { is_ellipse := false, center := (0, 0), a := 0, b := 0, angle := 0 }
  else
    let angle := 0.5 * conic_theta_times_2_adj conic
    let cos_theta := Real.cos angle
    let sin_theta := Real.sin angle
    let A := conic.getD 0 0 * cos_theta * cos_theta +
      conic.getD 1 0 * cos_theta * sin_theta + conic.getD 2 0 * sin_theta * sin_theta
    let C := conic.getD 0 0 * sin_theta * sin_theta -
      conic.getD 1 0 * cos_theta * sin_theta + conic.getD 2 0 * cos_theta * cos_theta
    let D := conic.getD 3 0 * cos_theta + conic.getD 4 0 * sin_theta
    let E := conic.getD 4 0 * cos_theta - conic.getD 3 0 * sin_theta
    let F := conic.getD 5 0
    let x := -0.5 * D / A
    let y := -0.5 * E / C
    let num := -4.0 * F * A * C + C * D * D + A * E * E
    { is_ellipse := true
    , center := (x * cos_theta - y * sin_theta, x * sin_theta + y * cos_theta)
    , a := Real.sqrt (num / (4.0 * A * C * C))
    , b := Real.sqrt (num / (4.0 * A * A * C))
    , angle := angle }

/-- C1: the spec says `is_ellipse` is false exactly when `4AC − B² ≤ 0` and
true otherwise.  The source has the test inverted: on the unit circle
`(A,B,C,D,E,F) = (1,0,1,0,0,-1)` the discriminant `4AC − B² = 4 > 0`, yet the
returned `is_ellipse` is `false` (commensuration_ellipses.cpp:372-376 return
the empty ellipse precisely when `4AC − B² > 0`, contradicting the function's
own doc comment). -/
theorem C1_discriminant_inverted :
    (4.0 * (1 : ℝ) * 1 - 0 * 0 > 0) ∧
      (ellipse_points_from_conic [1, 0, 1, 0, 0, -1]).is_ellipse = false := by
  constructor
  · norm_num
  · rw [ellipse_points_from_conic]
    rw [if_pos (by norm_num)]

/-- C2: the round-trip law fails at its first step because of the inverted
discriminant test.  The conic `(1,0,4,0,0,-4)` is exactly the conic of the
valid ellipse with center `(0,0)`, semi-axes `a = 2 ≥ b = 1` and angle `θ = 0`
(first conjunct), yet `ellipse_points_from_conic` flags it `is_ellipse = false`
and returns no geometry (second conjunct), so the center, axes and angle are
not reproduced. -/
theorem C2_roundtrip_rejected :
    (∀ x y : ℝ, conic_eval [1, 0, 4, 0, 0, -4] x y = 0 ↔ (x / 2) ^ 2 + y ^ 2 = 1) ∧
      (ellipse_points_from_conic [1, 0, 4, 0, 0, -4]).is_ellipse = false := by
  constructor
  · intro x y
    simp only [conic_eval, List.getD_cons_zero, List.getD_cons_succ]
    constructor
    · intro h; nlinarith
    · intro h; nlinarith
  · rw [ellipse_points_from_conic]
    rw [if_pos (by norm_num)]

/-- C5: on the conic `(A,B,C,D,E,F) = (1,-1,0,0,0,1)` — accepted by the code as
an ellipse since `4AC − B² = -1 ≤ 0` — we have `atan(B/(A−C)) = atan(-1) =
-π/4 < 0`.  The claim says the recorded angle is then `½·atan(B/(A−C)) + π/2 =
3π/8`, but the source adds `π/2` to `theta_times_2` before halving
(commensuration_ellipses.cpp:385-393), so the recorded angle is `π/8`, which
differs from `3π/8`. -/
theorem C5_angle_adjustment_halved :
    (ellipse_points_from_conic [1, -1, 0, 0, 0, 1]).angle = π / 8 ∧
      (π / 8 : ℝ) ≠ 0.5 * Real.arctan ((-1) / (1 - 0)) + π / 2 := by
  have harc : Real.arctan ((-1 : ℝ) / (1 - 0)) = -(π / 4) := by
    norm_num [Real.arctan_neg, Real.arctan_one]
  constructor
  · rw [ellipse_points_from_conic]
    rw [if_neg (by norm_num)]
    show 0.5 * conic_theta_times_2_adj [1, -1, 0, 0, 0, 1] = π / 8
    have ht : conic_theta_times_2 [1, -1, 0, 0, 0, 1] = -(π / 4) := by
      rw [conic_theta_times_2]
      simp only [List.getD_cons_zero, List.getD_cons_succ]
      exact harc
    rw [conic_theta_times_2_adj, ht,
      if_pos (show -(π / 4) < (0 : ℝ) by have := Real.pi_pos; linarith)]
    ring
  · rw [harc]
    intro h
    have : π = 0 := by linarith
    exact Real.pi_ne_zero this

/-- Bounds-checked write into a vector: `some` of the updated vector when the
index is in bounds, `none` when the write would be out of bounds (which is
undefined behaviour for `std::vector::operator[]`). -/
def checked_set {α : Type} (v : List α) (i : ℕ) (x : α) : Option (List α) :=
  if i < v.length then some (v.set i x) else none

/-- The `extrema` construction of `ellipse_points_from_conic`
(commensuration_ellipses.cpp:422-426): `std::vector<cv::Point2d> extrema(4);`
followed by writes to `extrema[1]`, `extrema[2]`, `extrema[3]` and
`extrema[4]`, here as bounds-checked writes on a 4-element vector.  Arguments
are the center, semi-axes and the sine/cosine of the rotation angle in scope at
those lines. -/
def ellipse_extrema (center : ℝ × ℝ) (a b cos_theta sin_theta : ℝ) :
    Option (List (ℝ × ℝ)) :=
  (checked_set (List.replicate 4 ((0 : ℝ), (0 : ℝ))) 1
      (center.1 + -b * sin_theta, center.2 + b * cos_theta)).bind fun v1 =>
    (checked_set v1 2 (center.1 + a * cos_theta, center.2 + a * sin_theta)).bind fun v2 =>
      (checked_set v2 3 (center.1 + b * sin_theta, center.2 + -b * cos_theta)).bind fun v3 =>
        checked_set v3 4 (center.1 + -a * cos_theta, center.2 + -a * sin_theta)

/-- C10: the construction of the four extremal points is not total — the source
writes to `extrema[4]` on a 4-element vector (indices 0..3), an out-of-bounds
access, and never writes index 0.  For every center, semi-axes and angle the
bounds-checked model of the write sequence fails (returns `none`) at the last
write. -/
theorem C10_extrema_write_out_of_bounds :
    ∀ (center : ℝ × ℝ) (a b cos_theta sin_theta : ℝ),
      ellipse_extrema center a b cos_theta sin_theta = none := by
  intro center a b cos_theta sin_theta
  rfl

/-- Sequential copy `ellipse_param[k] = val; k++` over the values returned by
the external fit (commensuration_ellipses.cpp:348-355).  `List.set` leaves the
vector unchanged when `k` is past the end; in the C++ such a write (a 6th
value into the 5-element vector) is out of bounds. -/
def write_from (v : List ℝ) (vals : List ℝ) (k : ℕ) : List ℝ :=
  match vals with
  | [] => v
  | x :: xs => write_from (v.set k x) xs (k + 1)

/-- Repackaging step of `hyper_renorm_ellipse`
(commensuration_ellipses.cpp:347-357): `std::vector<double> ellipse_param(5);`
then the range-for loop copies every value of the external result `el` into it
at successive indices, and `ellipse_param` is returned. -/
def hyper_renorm_repackage (el : List ℝ) : List ℝ :=
  write_from (List.replicate 5 0) el 0

lemma write_from_length (vals : List ℝ) :
    ∀ (v : List ℝ) (k : ℕ), (write_from v vals k).length = v.length := by
  induction vals with
  | nil => intro v k; rfl
  | cons x xs ih =>
    intro v k
    rw [write_from, ih, List.length_set]

/-- C4 counterexample: on a 6-value result `(A,B,C,D,E,F)` the vector returned
by `hyper_renorm_ellipse` does not have length 6 (the function allocates
`std::vector<double> ellipse_param(5)` and its length stays 5; the copy of the
6th value is an out-of-bounds write). -/
theorem C4_counterexample_not_length_6 :
    ¬ (hyper_renorm_repackage [1, 2, 3, 4, 5, 6]).length = 6 := by
  rw [hyper_renorm_repackage, write_from_length]
  decide

/-- C4 (amended): for every result vector received from the external fit,
`hyper_renorm_ellipse` returns a vector of exactly 5 values (the callers read
them as the 5 ellipse parameters x, y, major, minor, angle), not 6 conic
coefficients. -/
theorem C4_returns_5_values (el : List ℝ) :
    (hyper_renorm_repackage el).length = 5 := by
  rw [hyper_renorm_repackage, write_from_length]
  rfl

/-- Repackaging of the cluster labels returned by the external clustering in
`weighted_kmeans` (commensuration_ellipses.cpp:578-584):
`labels = std::vector<int>(data.size());` then `labels[i] = cluster_info[0][i]`
for `i < data.size()`.  `data` is the list of variables; each inner list holds
one variable's value for every sample, so the number of samples is the length
of `data[0]`. -/
def weighted_kmeans_labels (data : List (List ℝ)) (raw : List ℤ) : List ℤ :=
  (List.range data.length).map fun i => raw.getD i 0

/-- C6: the labels output does not have one entry per sample.  On the shape
`get_ellipses` passes (`dists_packaged`: one variable holding all the
distances — here 3 samples), `weighted_kmeans` allocates the labels vector
with `data.size()` = number of variables = 1 entry, not 3 (reading
`labels[k]` for the other samples in `get_ellipses` is then out of bounds). -/
theorem C6_labels_length_is_variable_count :
    (weighted_kmeans_labels [[5, 6, 7]] [0, 2, 1]).length = 1 ∧
      ([[(5 : ℝ), 6, 7]].getD 0 []).length = 3 ∧ (1 : ℕ) ≠ 3 := by
  refine ⟨?_, ?_, by decide⟩
  · rfl
  · rfl

/-- Count of the non-zero mask pixels (`cv::countNonZero`). -/
def countNonZero (mask : List (List Bool)) : ℕ :=
  (mask.map fun row => (row.filter id).length).sum

/-- One row of the data-packaging loop of `hyper_renorm_ellipse`
(commensuration_ellipses.cpp:314-330): walking the columns of a mask row, for
every marked pixel record `(x = column, y = row, w = weight)`. -/
def mask_points_row (i j : ℕ) : List Bool → List ℝ → List (ℝ × ℝ × ℝ)
  | [], _ => []
  | b :: bs, ws =>
    if b then ((j : ℝ), (i : ℝ), ws.headD 0) :: mask_points_row i (j + 1) bs ws.tail
    else mask_points_row i (j + 1) bs ws.tail

/-- Row-major data-packaging loop of `hyper_renorm_ellipse`
(commensuration_ellipses.cpp:314-330). -/
def mask_points_go (i : ℕ) : List (List Bool) → List (List ℝ) → List (ℝ × ℝ × ℝ)
  | [], _ => []
  | row :: rest, ws =>
    mask_points_row i 0 row (ws.headD []) ++ mask_points_go (i + 1) rest ws.tail

/-- The `(x, y, w)` triples `hyper_renorm_ellipse` packages for the external
fit: one triple per non-zero mask pixel, in row-major order. -/
def mask_points (mask : List (List Bool)) (weights : List (List ℝ)) :
    List (ℝ × ℝ × ℝ) :=
  mask_points_go 0 mask weights

/-- Entry of `hyper_renorm_ellipse` up to the external fit call
(commensuration_ellipses.cpp:300-344).  The source performs no precondition
check of any kind on the mask: it unconditionally packages the marked points
and invokes the fit.  The codomain is `Except String` so the claimed
error path is expressible; the source never constructs the error case. -/
def hyper_renorm_entry (mask : List (List Bool)) (weights : List (List ℝ)) :
    Except String (List (ℝ × ℝ × ℝ)) :=
  Except.ok (mask_points mask weights)

lemma mask_points_row_eq_nil (row : List Bool) (h : (row.filter id).length = 0) :
    ∀ (i j : ℕ) (ws : List ℝ), mask_points_row i j row ws = [] := by
  induction row with
  | nil => intro i j ws; rfl
  | cons b bs ih =>
    intro i j ws
    cases b with
    | false =>
      rw [mask_points_row, if_neg (by simp)]
      exact ih (by simpa using h) i (j + 1) ws.tail
    | true => simp [List.filter] at h

lemma mask_points_go_eq_nil (mask : List (List Bool)) (h : countNonZero mask = 0) :
    ∀ (i : ℕ) (ws : List (List ℝ)), mask_points_go i mask ws = [] := by
  induction mask with
  | nil => intro i ws; rfl
  | cons row rest ih =>
    intro i ws
    rw [countNonZero, List.map_cons, List.sum_cons, Nat.add_eq_zero] at h
    rw [mask_points_go, mask_points_row_eq_nil row h.1,
      ih (by simpa [countNonZero] using h.2) (i + 1) ws.tail]
    rfl

/-- C7 counterexample: on the all-zero 2×2 mask — zero non-zero pixels —
`hyper_renorm_ellipse` does not reject the input with an error; no error value
is ever produced. -/
theorem C7_counterexample_no_rejection :
    countNonZero [[false, false], [false, false]] = 0 ∧
      ¬ ∃ e, hyper_renorm_entry [[false, false], [false, false]]
        [[0, 0], [0, 0]] = Except.error e := by
  refine ⟨by decide, ?_⟩
  rintro ⟨e, h⟩
  simp [hyper_renorm_entry] at h

/-- C7 (amended): `hyper_renorm_ellipse` performs no entry precondition check:
for every mask with zero non-zero pixels it proceeds, packaging empty data
vectors and invoking the external fit on them (outcome `Except.ok []`, never a
rejection). -/
theorem C7_no_entry_check (mask : List (List Bool)) (weights : List (List ℝ))
    (h : countNonZero mask = 0) :
    hyper_renorm_entry mask weights = Except.ok [] := by
  rw [hyper_renorm_entry, mask_points, mask_points_go_eq_nil mask h]

/-- Witness for `C7_no_entry_check` at the concrete all-zero 1×1 mask. -/
theorem C7_no_entry_check_witness :
    countNonZero [[false]] = 0 ∧
      hyper_renorm_entry [[false]] [[0]] = Except.ok [] :=
  ⟨by decide, C7_no_entry_check [[false]] [[0]] (by decide)⟩

/-- Low limit of the cluster filter in `get_ellipses`
(commensuration_ellipses.cpp:113-116): the three cluster center values are
sorted and `llim` is `center_vals[0]`, the minimum. -/
noncomputable def cluster_llim (c0 c1 c2 : ℝ) : ℝ := min c0 (min c1 c2)

/-- High limit of the cluster filter in `get_ellipses`
(commensuration_ellipses.cpp:113-117): `ulim` is `center_vals[2]`, the
maximum of the three sorted center values. -/
noncomputable def cluster_ulim (c0 c1 c2 : ℝ) : ℝ := max c0 (max c1 c2)

/-- The per-point retention test of `get_ellipses`
(commensuration_ellipses.cpp:132): the value `centers[labels[k]][0]` of the
point's assigned cluster center is compared against `llim` and `ulim`. -/
def point_retained (c0 c1 c2 : ℝ) (label : ℕ) : Prop :=
  cluster_llim c0 c1 c2 ≤ [c0, c1, c2].getD label 0 ∧
    [c0, c1, c2].getD label 0 ≤ cluster_ulim c0 c1 c2

noncomputable instance point_retained_dec (c0 c1 c2 : ℝ) (label : ℕ) :
    Decidable (point_retained c0 c1 c2 label) :=
  inferInstanceAs (Decidable (_ ∧ _))

/-- Row-major construction of `refined_mask` in `get_ellipses`
(commensuration_ellipses.cpp:120-140), flattened: walking the mask pixels in
order, a marked pixel consumes the next label and is kept (`q[x] = 1`) iff its
assigned center value passes the retention test; unmarked pixels stay 0. -/
noncomputable def refine_flat (c0 c1 c2 : ℝ) : List Bool → List ℕ → List Bool
  | [], _ => []
  | b :: bs, labels =>
    if b then
      (if point_retained c0 c1 c2 (labels.headD 0) then true else false) ::
        refine_flat c0 c1 c2 bs labels.tail
    else false :: refine_flat c0 c1 c2 bs labels

/-- C3: the retention test of `get_ellipses` is vacuous, so no refinement
happens.  Since `llim` and `ulim` are the minimum and maximum of the three
cluster centers, every label passes the test (first conjunct); on a concrete
input with three distinct centroids `0 < 1 < 2` and points assigned to the
lowest, highest and middle clusters, the refined mask keeps every masked
point (second conjunct) — the low and high clusters are not excluded from the
refit, contradicting the claim. -/
theorem C3_cluster_filter_vacuous :
    (∀ (c0 c1 c2 : ℝ) (label : Fin 3), point_retained c0 c1 c2 label.val) ∧
      refine_flat 0 1 2 [true, true, true] [0, 2, 1] = [true, true, true] := by
  have hall : ∀ (c0 c1 c2 : ℝ) (label : Fin 3), point_retained c0 c1 c2 label.val := by
    intro c0 c1 c2 label
    fin_cases label
    · exact ⟨min_le_left _ _, le_max_left _ _⟩
    · exact ⟨le_trans (min_le_right _ _) (min_le_left _ _),
        le_trans (le_max_left _ _) (le_max_right _ _)⟩
    · exact ⟨le_trans (min_le_right _ _) (min_le_right _ _),
        le_trans (le_max_right _ _) (le_max_right _ _)⟩
  refine ⟨hall, ?_⟩
  have h0 : point_retained 0 1 2 0 := hall 0 1 2 ⟨0, by decide⟩
  have h1 : point_retained 0 1 2 1 := hall 0 1 2 ⟨1, by decide⟩
  have h2 : point_retained 0 1 2 2 := hall 0 1 2 ⟨2, by decide⟩
  simp [refine_flat, h0, h1, h2]

/-- Squared distance of pixel `(i, j)` from the mask center
`cv::Point((int)(size/2), (int)(size/2))` (commensuration_ellipses.cpp:160,171):
`(i-origin.y)*(i-origin.y) + (j-origin.x)*(j-origin.x)` in integer
arithmetic. -/
def dist2 (size i j : ℕ) : ℤ :=
  ((i : ℤ) - ((size / 2 : ℕ) : ℤ)) ^ 2 + ((j : ℤ) - ((size / 2 : ℕ) : ℤ)) ^ 2

/-- The marking test of `create_annular_mask`
(commensuration_ellipses.cpp:171-172): `dist >= inner_rad && dist <= outer_rad`
with `dist = std::sqrt(...)` of the integer squared distance. -/
def annulus_marked (size inner outer i j : ℕ) : Prop :=
  (inner : ℝ) ≤ Real.sqrt ((dist2 size i j : ℤ) : ℝ) ∧
    Real.sqrt ((dist2 size i j : ℤ) : ℝ) ≤ (outer : ℝ)

/-- Decidable square-compare form of the marking test; `annulus_markedB_iff`
proves it equivalent to the source's square-root form. -/
def annulus_markedB (size inner outer i j : ℕ) : Bool :=
  decide ((inner : ℤ) ^ 2 ≤ dist2 size i j ∧ dist2 size i j ≤ (outer : ℤ) ^ 2)

lemma dist2_nonneg (size i j : ℕ) : (0 : ℤ) ≤ dist2 size i j := by
  have h1 := sq_nonneg ((i : ℤ) - ((size / 2 : ℕ) : ℤ))
  have h2 := sq_nonneg ((j : ℤ) - ((size / 2 : ℕ) : ℤ))
  rw [dist2]
  linarith

lemma annulus_markedB_iff (size inner outer i j : ℕ) :
    annulus_markedB size inner outer i j = true ↔
      annulus_marked size inner outer i j := by
  rw [annulus_markedB, annulus_marked, decide_eq_true_eq]
  have hd : (0 : ℝ) ≤ ((dist2 size i j : ℤ) : ℝ) := by
    exact_mod_cast dist2_nonneg size i j
  rw [Real.le_sqrt (by positivity) hd, Real.sqrt_le_left (by positivity)]
  constructor
  · intro h
    constructor
    · exact_mod_cast h.1
    · exact_mod_cast h.2
  · intro h
    constructor
    · exact_mod_cast h.1
    · exact_mod_cast h.2

/-- Number of pixels marked by the `create_annular_mask` loop over the
`size × size` grid (commensuration_ellipses.cpp:164-177). -/
def annulus_count (size inner outer : ℕ) : ℕ :=
  ((List.range size).map fun i =>
    ((List.range size).filter fun j => annulus_markedB size inner outer i j).length).sum

/-- C8 counterexample: at `size = 7`, `inner = 2`, `outer = 3` — an admissible
input: odd size, `0 < inner < outer < size/2` — the marked-pixel count is 20
while the analytic annulus area is `π(3² − 2²) = 5π < 16`, so the count misses
the area by more than ±1 px per boundary (more than 2 px in total). -/
theorem C8_counterexample_tolerance_exceeded :
    Odd 7 ∧ 0 < 2 ∧ 2 < 3 ∧ (3 : ℝ) < 7 / 2 ∧
      ¬ |(annulus_count 7 2 3 : ℝ) - π * ((3 : ℝ) ^ 2 - (2 : ℝ) ^ 2)| ≤ 2 := by
  refine ⟨⟨3, by decide⟩, by decide, by decide, by norm_num, ?_⟩
  have hc : annulus_count 7 2 3 = 20 := by decide
  rw [hc, abs_le]
  intro h
  have h2 := h.2
  push_cast at h2
  norm_num at h2
  have hpi := Real.pi_lt_d2
  linarith

/-- C8 (amended): the pixels marked by `create_annular_mask` are exactly those
whose distance from the mask center lies in `[inner, outer]` (equivalently,
whose integer squared distance lies in `[inner², outer²]`), so the marked
count is the exact lattice count of the closed annulus; it can differ from the
analytic area `π(outer²−inner²)` by more than ±1 px per boundary — at
`size = 7`, `inner = 2`, `outer = 3` the count is 20 against an area of
`5π ≈ 15.7`. -/
theorem C8_count_is_exact_lattice_count :
    (∀ size inner outer i j : ℕ,
        annulus_markedB size inner outer i j = true ↔
          annulus_marked size inner outer i j) ∧
      annulus_count 7 2 3 = 20 :=
  ⟨annulus_markedB_iff, by decide⟩

/-- Header of a `cv::Mat`: an index into a heap of pixel buffers.  Copying a
`cv::Mat` copies the header (the buffer is shared); `operator=` rebinds the
header to another buffer. -/
structure MatHeader where
  idx : ℕ

/-- Heap of `cv::Mat` pixel buffers. -/
structure CVHeap where
  store : List (List (List ℕ))

/-- The pixel grid the `create_annular_mask` loop produces in its local
matrix: `val` at pixels passing the distance test, `0` elsewhere
(commensuration_ellipses.cpp:164-177). -/
def annular_mask_grid (size inner outer val : ℕ) : List (List ℕ) :=
  (List.range size).map fun i => (List.range size).map fun j =>
    if annulus_markedB size inner outer i j then val else 0

/-- Embedding of a call to `create_annular_mask`
(commensuration_ellipses.cpp:154-178) against the heap model.  The `annulus`
parameter is received by value — a header copy; `annulus = cv::Mat::zeros(...)`
allocates a fresh buffer and rebinds the local header to it; the marking loop
then writes through the local header into the fresh buffer.  The result is the
heap after the call together with the caller's header, which the call never
touches. -/
def create_annular_mask_call (h : CVHeap) (annulus : MatHeader)
    (size inner outer val : ℕ) : CVHeap × MatHeader :=
  let fresh := h.store.length
  let heap1 := CVHeap.mk
    (h.store ++ [List.replicate size (List.replicate size 0)])
  let heap2 := CVHeap.mk
    (heap1.store.set fresh (annular_mask_grid size inner outer val))
  (heap2, annulus)

lemma set_last {α : Type} (l : List α) (x y : α) :
    (l ++ [x]).set l.length y = l ++ [y] := by
  induction l with
  | nil => rfl
  | cons a as ih => simp [ih]

/-- C9: the caller's matrix is unchanged by `create_annular_mask` — its
buffer holds the same pixels after the call as before, and its header still
refers to that buffer — so in `get_ellipses` (commensuration_ellipses.cpp:85-87)
the `annulus_mask` used downstream is never populated by the call; the mask the
loop computes lives only in the buffer the local header was rebound to. -/
theorem C9_caller_mask_unchanged (h : CVHeap) (annulus : MatHeader)
    (size inner outer val : ℕ) (hidx : annulus.idx < h.store.length) :
    (create_annular_mask_call h annulus size inner outer val).1.store.getD
        annulus.idx [] = h.store.getD annulus.idx [] ∧
      (create_annular_mask_call h annulus size inner outer val).2 = annulus := by
  constructor
  · show ((h.store ++ [List.replicate size (List.replicate size 0)]).set
        h.store.length (annular_mask_grid size inner outer val)).getD
        annulus.idx [] = h.store.getD annulus.idx []
    rw [set_last, List.getD_append _ _ _ _ hidx]
  · rfl

/-- Witness for `C9_caller_mask_unchanged`: a heap with one (empty) buffer,
the caller's header pointing at it, and the `get_ellipses`-style arguments
`size = 5`, `inner = 1`, `outer = 2`, `val = 1`. -/
theorem C9_caller_mask_unchanged_witness :
    (MatHeader.mk 0).idx < (CVHeap.mk [[[0]]]).store.length ∧
      ((create_annular_mask_call (CVHeap.mk [[[0]]]) (MatHeader.mk 0)
          5 1 2 1).1.store.getD (MatHeader.mk 0).idx [] =
        (CVHeap.mk [[[0]]]).store.getD (MatHeader.mk 0).idx [] ∧
      (create_annular_mask_call (CVHeap.mk [[[0]]]) (MatHeader.mk 0)
          5 1 2 1).2 = MatHeader.mk 0) :=
  ⟨by decide, C9_caller_mask_unchanged (CVHeap.mk [[[0]]]) (MatHeader.mk 0)
    5 1 2 1 (by decide)⟩

end ba
